import Mathlib

/-!
Shallow embedding of the ecom-be catalog backend.

The repository contains two variants of the same HTTP CRUD service:
* src/server.js — the flat-file variant: two in-memory arrays
  (productsData, categoriesData), every mutation followed by a rewrite of
  the whole data file;
* src/unnamed/part_000 — the relational variant: PostgreSQL tables
  products/categories, each row holding the record in a jsonb column data.

Records are open JSON objects.  JavaScript objects and jsonb documents are
modelled as finite association sequences of string keys and JSON values
(JFields below).  Express routes are modelled as pure functions from the
store state and the request data to the new state and the HTTP response;
the wall clock (Date.now), the random draw (Math.floor(Math.random()*10000)),
and the success or failure of the persistence call are passed in as
explicit parameters.
-/

mutual

/-- JSON value as stored in the two collections: string, number, boolean,
null, or nested object.  Numbers are modelled as integers (no claim in
scope computes with fractional values; values are only compared). -/
inductive JVal where
  | str : String → JVal
  | num : Int → JVal
  | bool : Bool → JVal
  | null : JVal
  | obj : JFields → JVal
deriving DecidableEq, Repr

/-- Field sequence of a JSON object, in insertion order (JavaScript
object-key order for the flat-file variant; for jsonb the canonical
re-ordering of keys is not modelled, which no claim in scope observes). -/
inductive JFields where
  | nil : JFields
  | cons : String → JVal → JFields → JFields
deriving DecidableEq, Repr

end

/-- Property read r.key of a JavaScript object / jsonb key lookup:
first binding of the key, if any. -/
def JFields.get : JFields → String → Option JVal
  | .nil, _ => none
  | .cons k v r, key => if k = key then some v else r.get key

/-- Property write r.key = v of a JavaScript object (also jsonb_set with
create_missing): overwrite the binding in place if the key is present,
append it otherwise. -/
def JFields.set : JFields → String → JVal → JFields
  | .nil, key, v => .cons key v .nil
  | .cons k w r, key, v =>
    if k = key then .cons k v r else .cons k w (r.set key v)

/-- Spread assignment target semantics: assign every binding of src onto
acc in order.  With acc = old and src = new this is exactly the object
spread expression written in the source as the merge of old and new. -/
def JFields.setAll : JFields → JFields → JFields
  | acc, .nil => acc
  | acc, .cons k v r => (acc.set k v).setAll r

/-- Keys of an object in order. -/
def JFields.keys : JFields → List String
  | .nil => []
  | .cons k _ r => k :: r.keys

mutual

/-- JSON text rendering of a value, used to model the text extraction
operator of jsonb (string escape sequences are not modelled; no claim in
scope renders a string containing characters that need escaping). -/
def renderJVal : JVal → String
  | .str s => "\"" ++ s ++ "\""
  | .num n => toString n
  | .bool b => if b then "true" else "false"
  | .null => "null"
  | .obj fs => "\x7b" ++ renderFields fs ++ "\x7d"

/-- JSON text rendering of the field list of an object. -/
def renderFields : JFields → String
  | .nil => ""
  | .cons k v .nil => "\"" ++ k ++ "\":" ++ renderJVal v
  | .cons k v r => "\"" ++ k ++ "\":" ++ renderJVal v ++ "," ++ renderFields r

end

/-- Text extraction data ->> key of PostgreSQL jsonb: SQL NULL when the key
is absent or its value is JSON null, the raw string for a JSON string, and
the JSON rendering otherwise. -/
def jsonbTextExtract (r : JFields) (key : String) : Option String :=
  match r.get key with
  | none => none
  | some .null => none
  | some (.str s) => some s
  | some v => some (renderJVal v)

/-- Utility function generateId of both variants: template literal
concatenating the prefix, Date.now() (epoch milliseconds) and
Math.floor(Math.random() * 10000). -/
def generateId (pre : String) (nowMillis randDraw : Nat) : String :=
  pre ++ Nat.repr nowMillis ++ Nat.repr randDraw

/-- JSON response bodies produced by the routes. -/
inductive Body where
  | recBody : JFields → Body
  | listBody : List JFields → Body
  | msgBody : String → Body
  | urlBody : String → Body
  | empty : Body
deriving DecidableEq, Repr

/-- HTTP response: status code plus JSON body (empty for 204). -/
structure Resp where
  status : Nat
  body : Body
deriving DecidableEq, Repr

/-- Identifier match used by the flat-file routes: the strict equality
test record.ProductID === id (resp. CategoryID), true exactly when the
identifier field is present and is the string id. -/
def recMatches (idField id : String) (r : JFields) : Bool :=
  r.get idField == some (JVal.str id)

/-- State of the flat-file variant: the two live in-memory arrays plus the
log of snapshots written to the data file by writeData (each write dumps
both collections). -/
structure FileState where
  productsData : List JFields
  categoriesData : List JFields
  diskWrites : List (List JFields × List JFields)
deriving DecidableEq, Repr

/-- writeData of server.js: serialize both collections to the data file.
fs.writeFileSync can throw (for example on a full or read-only disk); the
outcome of the write is the explicit wfail parameter, none meaning
success and some e a thrown error e. -/
def writeData (wfail : Option String) (s : FileState) :
    Except String FileState :=
  match wfail with
  | some e => .error e
  | none =>
    .ok { s with diskWrites :=
            s.diskWrites ++ [(s.productsData, s.categoriesData)] }

/-- Route GET /products of the flat-file variant: res.json(productsData). -/
def getProductsF (s : FileState) : FileState × Resp :=
  (s, ⟨200, .listBody s.productsData⟩)

/-- Route POST /products of the flat-file variant: assign a fresh
ProductID to the body, push it, save to file, answer 201 with the record.
The handler has no try/catch, so a throw from writeData propagates. -/
def postProductF (wfail : Option String) (nowMillis randDraw : Nat)
    (s : FileState) (body : JFields) : Except String (FileState × Resp) :=
  let newProduct :=
    body.set "ProductID" (.str (generateId "prod_" nowMillis randDraw))
  let s1 := { s with productsData := s.productsData ++ [newProduct] }
  match writeData wfail s1 with
  | .error e => .error e
  | .ok s2 => .ok (s2, ⟨201, .recBody newProduct⟩)

/-- Route PUT /products/:id of the flat-file variant: findIndex on
ProductID; if found, replace the record with the spread merge of the body
over it, save to file and answer 200 with the merged record; otherwise
404.  No try/catch. -/
def putProductF (wfail : Option String) (s : FileState) (id : String)
    (body : JFields) : Except String (FileState × Resp) :=
  match s.productsData.findIdx? (recMatches "ProductID" id) with
  | some index =>
    let merged := (s.productsData.getD index .nil).setAll body
    let s1 := { s with productsData := s.productsData.set index merged }
    match writeData wfail s1 with
    | .error e => .error e
    | .ok s2 => .ok (s2, ⟨200, .recBody merged⟩)
  | none => .ok (s, ⟨404, .msgBody "Product not found"⟩)

/-- Route DELETE /products/:id of the flat-file variant: findIndex on
ProductID; if found, splice the record out, save to file and answer 204
with empty body; otherwise 404.  No try/catch. -/
def deleteProductF (wfail : Option String) (s : FileState) (id : String) :
    Except String (FileState × Resp) :=
  match s.productsData.findIdx? (recMatches "ProductID" id) with
  | some index =>
    let s1 := { s with productsData := s.productsData.eraseIdx index }
    match writeData wfail s1 with
    | .error e => .error e
    | .ok s2 => .ok (s2, ⟨204, .empty⟩)
  | none => .ok (s, ⟨404, .msgBody "Product not found"⟩)

/-- Route GET /categories of the flat-file variant. -/
def getCategoriesF (s : FileState) : FileState × Resp :=
  (s, ⟨200, .listBody s.categoriesData⟩)

/-- Route POST /categories of the flat-file variant. -/
def postCategoryF (wfail : Option String) (nowMillis randDraw : Nat)
    (s : FileState) (body : JFields) : Except String (FileState × Resp) :=
  let newCategory :=
    body.set "CategoryID" (.str (generateId "cat_" nowMillis randDraw))
  let s1 := { s with categoriesData := s.categoriesData ++ [newCategory] }
  match writeData wfail s1 with
  | .error e => .error e
  | .ok s2 => .ok (s2, ⟨201, .recBody newCategory⟩)

/-- Route PUT /categories/:id of the flat-file variant. -/
def putCategoryF (wfail : Option String) (s : FileState) (id : String)
    (body : JFields) : Except String (FileState × Resp) :=
  match s.categoriesData.findIdx? (recMatches "CategoryID" id) with
  | some index =>
    let merged := (s.categoriesData.getD index .nil).setAll body
    let s1 := { s with categoriesData := s.categoriesData.set index merged }
    match writeData wfail s1 with
    | .error e => .error e
    | .ok s2 => .ok (s2, ⟨200, .recBody merged⟩)
  | none => .ok (s, ⟨404, .msgBody "Category not found"⟩)

/-- Route DELETE /categories/:id of the flat-file variant. -/
def deleteCategoryF (wfail : Option String) (s : FileState) (id : String) :
    Except String (FileState × Resp) :=
  match s.categoriesData.findIdx? (recMatches "CategoryID" id) with
  | some index =>
    let s1 := { s with categoriesData := s.categoriesData.eraseIdx index }
    match writeData wfail s1 with
    | .error e => .error e
    | .ok s2 => .ok (s2, ⟨204, .empty⟩)
  | none => .ok (s, ⟨404, .msgBody "Category not found"⟩)

/-- State of the relational variant: the data column of the rows of the
two tables, in table order (the queries use no ORDER BY; the model keeps
insertion order). -/
structure RelState where
  products : List JFields
  categories : List JFields
deriving DecidableEq, Repr

/-- Row filter of the WHERE clauses data ->> idField = id of the
relational variant (SQL NULL = id is not true, so rows lacking the field
or holding JSON null never match). -/
def rowMatches (idField id : String) (r : JFields) : Bool :=
  jsonbTextExtract r idField == some id

/-- SQL function jsonb_set(data, path, v) with the single-key paths used
by the source: replace or create the top-level key. -/
def jsonbSet (r : JFields) (key : String) (v : JVal) : JFields :=
  r.set key v

/-- Route GET /products of the relational variant: SELECT data FROM
products inside try/catch; a query failure is answered with 500 and a
generic message. -/
def relGetProducts (qfail : Option String) (s : RelState) :
    RelState × Resp :=
  match qfail with
  | some _ => (s, ⟨500, .msgBody "Error fetching products"⟩)
  | none => (s, ⟨200, .listBody s.products⟩)

/-- Route POST /products of the relational variant: assign a fresh
ProductID to the body, INSERT the record, answer 201 with it; on query
failure answer 500 with a generic message. -/
def relPostProduct (qfail : Option String) (nowMillis randDraw : Nat)
    (s : RelState) (body : JFields) : RelState × Resp :=
  let newProduct :=
    body.set "ProductID" (.str (generateId "prod_" nowMillis randDraw))
  match qfail with
  | some _ => (s, ⟨500, .msgBody "Error creating product"⟩)
  | none =>
    ({ s with products := s.products ++ [newProduct] },
     ⟨201, .recBody newProduct⟩)

/-- Route PUT /products/:id of the relational variant.  The UPDATE sets
data = jsonb_set(data, path ProductID, $1) on every row whose ProductID
text is id, where $1 is the JSON.stringify of the whole request body cast
to jsonb — that is, it stores the entire body object INTO the ProductID
field of each matching row.  RETURNING data yields the updated rows; the
route answers 200 with the first one, or 404 when no row matched. -/
def relPutProduct (qfail : Option String) (s : RelState) (id : String)
    (body : JFields) : RelState × Resp :=
  match qfail with
  | some _ => (s, ⟨500, .msgBody "Error updating product"⟩)
  | none =>
    let updatedRows :=
      (s.products.filter (rowMatches "ProductID" id)).map
        (fun r => jsonbSet r "ProductID" (.obj body))
    match updatedRows with
    | [] => (s, ⟨404, .msgBody "Product not found"⟩)
    | row :: _ =>
      ({ s with products :=
           s.products.map (fun r =>
             if rowMatches "ProductID" id r then
               jsonbSet r "ProductID" (.obj body)
             else r) },
       ⟨200, .recBody row⟩)

/-- Route DELETE /products/:id of the relational variant: DELETE every row
whose ProductID text is id; 204 when at least one row was deleted, 404
otherwise. -/
def relDeleteProduct (qfail : Option String) (s : RelState) (id : String) :
    RelState × Resp :=
  match qfail with
  | some _ => (s, ⟨500, .msgBody "Error deleting product"⟩)
  | none =>
    match s.products.filter (rowMatches "ProductID" id) with
    | [] => (s, ⟨404, .msgBody "Product not found"⟩)
    | _ :: _ =>
      ({ s with products :=
           s.products.filter (fun r => !(rowMatches "ProductID" id r)) },
       ⟨204, .empty⟩)

/-- Route GET /categories of the relational variant. -/
def relGetCategories (qfail : Option String) (s : RelState) :
    RelState × Resp :=
  match qfail with
  | some _ => (s, ⟨500, .msgBody "Error fetching categories"⟩)
  | none => (s, ⟨200, .listBody s.categories⟩)

/-- Route POST /categories of the relational variant. -/
def relPostCategory (qfail : Option String) (nowMillis randDraw : Nat)
    (s : RelState) (body : JFields) : RelState × Resp :=
  let newCategory :=
    body.set "CategoryID" (.str (generateId "cat_" nowMillis randDraw))
  match qfail with
  | some _ => (s, ⟨500, .msgBody "Error creating category"⟩)
  | none =>
    ({ s with categories := s.categories ++ [newCategory] },
     ⟨201, .recBody newCategory⟩)

/-- Route PUT /categories/:id of the relational variant, with the same
jsonb_set shape as the product route (the whole body is stored into the
CategoryID field of every matching row). -/
def relPutCategory (qfail : Option String) (s : RelState) (id : String)
    (body : JFields) : RelState × Resp :=
  match qfail with
  | some _ => (s, ⟨500, .msgBody "Error updating category"⟩)
  | none =>
    let updatedRows :=
      (s.categories.filter (rowMatches "CategoryID" id)).map
        (fun r => jsonbSet r "CategoryID" (.obj body))
    match updatedRows with
    | [] => (s, ⟨404, .msgBody "Category not found"⟩)
    | row :: _ =>
      ({ s with categories :=
           s.categories.map (fun r =>
             if rowMatches "CategoryID" id r then
               jsonbSet r "CategoryID" (.obj body)
             else r) },
       ⟨200, .recBody row⟩)

/-- Route DELETE /categories/:id of the relational variant. -/
def relDeleteCategory (qfail : Option String) (s : RelState) (id : String) :
    RelState × Resp :=
  match qfail with
  | some _ => (s, ⟨500, .msgBody "Error deleting category"⟩)
  | none =>
    match s.categories.filter (rowMatches "CategoryID" id) with
    | [] => (s, ⟨404, .msgBody "Category not found"⟩)
    | _ :: _ =>
      ({ s with categories :=
           s.categories.filter (fun r => !(rowMatches "CategoryID" id r)) },
       ⟨204, .empty⟩)

/-- File carried on the request by the upload middleware. -/
structure UploadedFile where
  fieldname : String
  originalname : String
  location : String
deriving DecidableEq, Repr

/-- Key-naming function of the multer-s3 configuration: the stored object
key is uploads/ followed by Date.now() and the original file name. -/
def s3Key (nowMillis : Nat) (originalname : String) : String :=
  "uploads/" ++ Nat.repr nowMillis ++ "_" ++ originalname

/-- Modelled from the spec: the upload.single middleware of the external
multer / multer-s3 libraries (not part of this repository).  It accepts
exactly one file under the multipart field name image; when present it
streams the file into object storage under the key given by the key
function and records the storage public URL on the request; when absent
it stores nothing and leaves the request file unset. -/
def uploadSingleImage (nowMillis : Nat) (store : List String)
    (parts : List (String × String)) : List String × Option UploadedFile :=
  match parts.find? (fun p => p.1 == "image") with
  | none => (store, none)
  | some (f, name) =>
    (store ++ [s3Key nowMillis name], some ⟨f, name, s3Key nowMillis name⟩)

/-- Handler of POST /upload (identical in both variants): 400 with message
"No file uploaded" when the middleware attached no file, otherwise 200
with the storage URL of the uploaded file.  The handler itself performs
no storage write. -/
def uploadHandler (reqFile : Option UploadedFile) : Resp :=
  match reqFile with
  | none => ⟨400, .msgBody "No file uploaded"⟩
  | some f => ⟨200, .urlBody f.location⟩

/-- Route POST /upload: the middleware runs first, then the handler. -/
def postUpload (nowMillis : Nat) (store : List String)
    (parts : List (String × String)) : List String × Resp :=
  let m := uploadSingleImage nowMillis store parts
  (m.1, uploadHandler m.2)

/-! Supporting lemmas about the record operations. -/

theorem JFields.get_set : ∀ (r : JFields) (k : String) (v : JVal)
    (q : String), (r.set k v).get q = if q = k then some v else r.get q
  | .nil, k, v, q => by
    by_cases h : k = q
    · subst h
      simp [JFields.set, JFields.get]
    · simp [JFields.set, JFields.get, h, Ne.symm h]
  | .cons k' w rest, k, v, q => by
    by_cases hk : k' = k
    · subst hk
      simp only [JFields.set, if_pos rfl, JFields.get]
      by_cases hq : k' = q
      · subst hq
        simp
      · simp [hq, Ne.symm hq]
    · simp only [JFields.set, if_neg hk, JFields.get]
      by_cases hq : k' = q
      · subst hq
        simp [JFields.get, hk]
      · simp [JFields.get, hq, JFields.get_set rest k v q]

theorem JFields.get_eq_none_of_not_mem_keys : ∀ (r : JFields) (q : String),
    q ∉ r.keys → r.get q = none
  | .nil, _, _ => rfl
  | .cons k v rest, q, h => by
    have h' : ¬q = k ∧ q ∉ rest.keys := by
      simpa [JFields.keys, List.mem_cons, not_or] using h
    simp only [JFields.get, if_neg (Ne.symm h'.1)]
    exact JFields.get_eq_none_of_not_mem_keys rest q h'.2

theorem JFields.get_setAll : ∀ (src acc : JFields) (q : String),
    src.keys.Nodup →
      (acc.setAll src).get q =
        match src.get q with
        | some v => some v
        | none => acc.get q
  | .nil, acc, q, _ => by simp [JFields.setAll, JFields.get]
  | .cons k v rest, acc, q, hnd => by
    have hnd' : k ∉ rest.keys ∧ rest.keys.Nodup := by
      simpa [JFields.keys, List.nodup_cons] using hnd
    simp only [JFields.setAll]
    rw [JFields.get_setAll rest _ q hnd'.2]
    by_cases hq : k = q
    · subst hq
      rw [JFields.get_eq_none_of_not_mem_keys rest k hnd'.1]
      simp [JFields.get, JFields.get_set]
    · simp only [JFields.get, if_neg hq]
      cases h : rest.get q with
      | some w => simp
      | none => simp [JFields.get_set, Ne.symm hq]

/-! Supporting lemmas about decimal digit strings, for the shape of the
generated identifiers. -/

theorem digitChar_isDigit {m : Nat} (h : m < 10) :
    (Nat.digitChar m).isDigit = true := by
  interval_cases m <;> decide

theorem toDigitsCore_mem_isDigit (fuel : Nat) :
    ∀ (n : Nat) (ds : List Char), (∀ c ∈ ds, c.isDigit = true) →
      ∀ c ∈ Nat.toDigitsCore 10 fuel n ds, c.isDigit = true := by
  induction fuel with
  | zero =>
    intro n ds hds
    simpa [Nat.toDigitsCore] using hds
  | succ fuel ih =>
    intro n ds hds c hc
    rw [Nat.toDigitsCore] at hc
    have hmem : ∀ x ∈ Nat.digitChar (n % 10) :: ds, x.isDigit = true := by
      intro x hx
      rcases List.mem_cons.mp hx with rfl | hx
      · exact digitChar_isDigit (Nat.mod_lt _ (by norm_num))
      · exact hds x hx
    by_cases h0 : n / 10 = 0
    · rw [if_pos h0] at hc
      exact hmem c hc
    · rw [if_neg h0] at hc
      exact ih _ _ hmem c hc

theorem toDigitsCore_ne_nil (fuel : Nat) :
    ∀ (n : Nat) (ds : List Char), ds ≠ [] →
      Nat.toDigitsCore 10 fuel n ds ≠ [] := by
  induction fuel with
  | zero =>
    intro n ds h
    simpa [Nat.toDigitsCore] using h
  | succ fuel ih =>
    intro n ds h
    rw [Nat.toDigitsCore]
    by_cases h0 : n / 10 = 0
    · rw [if_pos h0]
      exact List.cons_ne_nil _ _
    · rw [if_neg h0]
      exact ih _ _ (List.cons_ne_nil _ _)

theorem natRepr_data_isDigit (n : Nat) :
    ∀ c ∈ (Nat.repr n).data, c.isDigit = true := by
  intro c hc
  have hdata : (Nat.repr n).data = Nat.toDigitsCore 10 (n + 1) n [] := rfl
  rw [hdata] at hc
  exact toDigitsCore_mem_isDigit _ _ _ (by simp) c hc

theorem natRepr_data_ne_nil (n : Nat) : (Nat.repr n).data ≠ [] := by
  have hdata : (Nat.repr n).data = Nat.toDigitsCore 10 (n + 1) n [] := rfl
  rw [hdata, Nat.toDigitsCore]
  by_cases h0 : n / 10 = 0
  · rw [if_pos h0]
    exact List.cons_ne_nil _ _
  · rw [if_neg h0]
    exact toDigitsCore_ne_nil _ _ _ (List.cons_ne_nil _ _)

theorem digitSuffix_spec (a b : Nat) :
    (Nat.repr a ++ Nat.repr b) ≠ "" ∧
      ∀ c ∈ (Nat.repr a ++ Nat.repr b).data, c.isDigit = true := by
  constructor
  · intro h
    rw [String.ext_iff, String.data_append] at h
    exact natRepr_data_ne_nil a (List.append_eq_nil.mp h).1
  · intro c hc
    rw [String.data_append, List.mem_append] at hc
    rcases hc with hc | hc
    · exact natRepr_data_isDigit a c hc
    · exact natRepr_data_isDigit b c hc

/-! Supporting lemma about removing the unique matching element. -/

theorem countP_eraseIdx_of_getElem {α : Type} (l : List α) (p : α → Bool)
    (i : Nat) (hi : i < l.length) (hp : p l[i] = true) :
    (l.eraseIdx i).countP p = l.countP p - 1 := by
  have hdecomp : l.countP p =
      (l.take i).countP p + ((l.drop (i + 1)).countP p + 1) := by
    conv_lhs => rw [← List.take_append_drop i l]
    rw [List.countP_append, List.drop_eq_getElem_cons hi, List.countP_cons,
      hp]
    simp [Nat.add_comm]
  rw [List.eraseIdx_eq_take_drop_succ, List.countP_append, hdecomp]
  omega

/-! Claim theorems. -/

/-- C8: for every prefix, the ID generator returns exactly the
concatenation of the prefix, the current epoch-milliseconds timestamp and
the random draw; the draw produced by Math.floor(Math.random() * 10000)
lies in the range 0..10000, the function is total (never fails), and the
output has no other component. -/
theorem C8_generateId_concatenation (pre : String)
    (nowMillis randDraw : Nat) (hr : randDraw < 10000) :
    generateId pre nowMillis randDraw =
        pre ++ Nat.repr nowMillis ++ Nat.repr randDraw ∧
      randDraw ≤ 10000 :=
  ⟨rfl, Nat.le_of_lt hr⟩

theorem C8_generateId_concatenation_witness :
    4537 < 10000 ∧
      (generateId "prod_" 1700000000000 4537 =
          "prod_" ++ Nat.repr 1700000000000 ++ Nat.repr 4537 ∧
        4537 ≤ 10000) :=
  ⟨by decide, C8_generateId_concatenation "prod_" 1700000000000 4537
    (by decide)⟩

/-- C9: a POST /upload request whose multipart parts carry no file under
the field name image is answered 400 with the JSON message No file
uploaded, and object storage is left exactly as it was. -/
theorem C9_upload_without_image_field (nowMillis : Nat)
    (store : List String) (parts : List (String × String))
    (h : ∀ p ∈ parts, p.1 ≠ "image") :
    postUpload nowMillis store parts =
      (store, ⟨400, .msgBody "No file uploaded"⟩) := by
  have hfind : parts.find? (fun p => p.1 == "image") = none := by
    rw [List.find?_eq_none]
    intro p hp
    simpa using h p hp
  simp [postUpload, uploadSingleImage, hfind, uploadHandler]

theorem C9_upload_without_image_field_witness :
    (∀ p ∈ [("file", "a.png"), ("avatar", "b.jpg")],
        (p : String × String).1 ≠ "image") ∧
      postUpload 5 ["uploads/1_old.png"]
          [("file", "a.png"), ("avatar", "b.jpg")] =
        (["uploads/1_old.png"], ⟨400, .msgBody "No file uploaded"⟩) :=
  ⟨by decide, C9_upload_without_image_field 5 _ _ (by decide)⟩

/-- C4: in both variants, POST /products (resp. /categories) answers 201
with the request body's fields unchanged except for a server-assigned
identifier field ProductID (resp. CategoryID) whose value is the
generated prod_ (resp. cat_) identifier — a nonempty prefix-plus-digits
string determined only by the clock and the random draw, never taken from
the input. -/
theorem C4_create_assigns_fresh_identifier (nowMillis randDraw : Nat)
    (fs : FileState) (rs : RelState) (body : JFields) :
    (∃ ds : String, generateId "prod_" nowMillis randDraw = "prod_" ++ ds ∧
        ds ≠ "" ∧ ∀ c ∈ ds.data, c.isDigit = true) ∧
    (∃ ds : String, generateId "cat_" nowMillis randDraw = "cat_" ++ ds ∧
        ds ≠ "" ∧ ∀ c ∈ ds.data, c.isDigit = true) ∧
    (∃ fs' nr, postProductF none nowMillis randDraw fs body =
        .ok (fs', ⟨201, .recBody nr⟩) ∧
      nr.get "ProductID" =
          some (.str (generateId "prod_" nowMillis randDraw)) ∧
      ∀ k, k ≠ "ProductID" → nr.get k = body.get k) ∧
    (∃ fs' nr, postCategoryF none nowMillis randDraw fs body =
        .ok (fs', ⟨201, .recBody nr⟩) ∧
      nr.get "CategoryID" =
          some (.str (generateId "cat_" nowMillis randDraw)) ∧
      ∀ k, k ≠ "CategoryID" → nr.get k = body.get k) ∧
    (∃ rs' nr, relPostProduct none nowMillis randDraw rs body =
        (rs', ⟨201, .recBody nr⟩) ∧
      nr.get "ProductID" =
          some (.str (generateId "prod_" nowMillis randDraw)) ∧
      ∀ k, k ≠ "ProductID" → nr.get k = body.get k) ∧
    (∃ rs' nr, relPostCategory none nowMillis randDraw rs body =
        (rs', ⟨201, .recBody nr⟩) ∧
      nr.get "CategoryID" =
          some (.str (generateId "cat_" nowMillis randDraw)) ∧
      ∀ k, k ≠ "CategoryID" → nr.get k = body.get k) := by
  refine ⟨⟨Nat.repr nowMillis ++ Nat.repr randDraw, ?_,
      (digitSuffix_spec _ _).1, (digitSuffix_spec _ _).2⟩,
    ⟨Nat.repr nowMillis ++ Nat.repr randDraw, ?_,
      (digitSuffix_spec _ _).1, (digitSuffix_spec _ _).2⟩,
    ⟨_, _, rfl, ?_, ?_⟩, ⟨_, _, rfl, ?_, ?_⟩,
    ⟨_, _, rfl, ?_, ?_⟩, ⟨_, _, rfl, ?_, ?_⟩⟩
  · rw [generateId, String.append_assoc]
  · rw [generateId, String.append_assoc]
  · simp [JFields.get_set]
  · intro k hk
    simp [JFields.get_set, hk]
  · simp [JFields.get_set]
  · intro k hk
    simp [JFields.get_set, hk]
  · simp [JFields.get_set]
  · intro k hk
    simp [JFields.get_set, hk]
  · simp [JFields.get_set]
  · intro k hk
    simp [JFields.get_set, hk]

/-- C5: creating a record and then listing that collection (flat-file
variant) yields a list containing the exact record returned by the
create, identifier included. -/
theorem C5_create_then_list_contains_record (nowMillis randDraw : Nat)
    (fs : FileState) (body : JFields) :
    (∃ fs' nr, postProductF none nowMillis randDraw fs body =
        .ok (fs', ⟨201, .recBody nr⟩) ∧
      (getProductsF fs').2 = ⟨200, .listBody fs'.productsData⟩ ∧
      nr ∈ fs'.productsData) ∧
    (∃ fs' nr, postCategoryF none nowMillis randDraw fs body =
        .ok (fs', ⟨201, .recBody nr⟩) ∧
      (getCategoriesF fs').2 = ⟨200, .listBody fs'.categoriesData⟩ ∧
      nr ∈ fs'.categoriesData) := by
  refine ⟨⟨_, _, rfl, rfl, ?_⟩, ⟨_, _, rfl, rfl, ?_⟩⟩
  · simp [postProductF, writeData]
  · simp [postCategoryF, writeData]

/-- C3: in the flat-file variant, updating an existing record answers 200
with the spread merge of the full body over the stored record: every
field named in the body (the identifier field included) takes the body's
value, every other field keeps its stored value. -/
theorem C3_flat_update_shallow_merge (fs : FileState) (id : String)
    (body : JFields) (i j : Nat)
    (hp : fs.productsData.findIdx? (recMatches "ProductID" id) = some i)
    (hc : fs.categoriesData.findIdx? (recMatches "CategoryID" id) = some j)
    (hnd : body.keys.Nodup) :
    (∃ fs', putProductF none fs id body =
        .ok (fs', ⟨200,
          .recBody ((fs.productsData.getD i .nil).setAll body)⟩)) ∧
    (∀ k, ((fs.productsData.getD i .nil).setAll body).get k =
        match body.get k with
        | some v => some v
        | none => (fs.productsData.getD i .nil).get k) ∧
    (∃ fs', putCategoryF none fs id body =
        .ok (fs', ⟨200,
          .recBody ((fs.categoriesData.getD j .nil).setAll body)⟩)) ∧
    (∀ k, ((fs.categoriesData.getD j .nil).setAll body).get k =
        match body.get k with
        | some v => some v
        | none => (fs.categoriesData.getD j .nil).get k) := by
  refine ⟨?_, fun k => JFields.get_setAll body _ k hnd,
    ?_, fun k => JFields.get_setAll body _ k hnd⟩
  · simp only [putProductF, hp, writeData]
    exact ⟨_, rfl⟩
  · simp only [putCategoryF, hc, writeData]
    exact ⟨_, rfl⟩

theorem C3_flat_update_shallow_merge_witness :
    ([JFields.cons "ProductID" (.str "p1")
          (JFields.cons "name" (.str "A") .nil)].findIdx?
        (recMatches "ProductID" "p1") = some 0 ∧
      [JFields.cons "CategoryID" (.str "p1") .nil].findIdx?
        (recMatches "CategoryID" "p1") = some 0 ∧
      (JFields.cons "price" (.num 5) .nil).keys.Nodup) ∧
      ((∃ fs', putProductF none
          ⟨[JFields.cons "ProductID" (.str "p1")
              (JFields.cons "name" (.str "A") .nil)],
            [JFields.cons "CategoryID" (.str "p1") .nil], []⟩ "p1"
          (JFields.cons "price" (.num 5) .nil) =
          .ok (fs', ⟨200,
            .recBody (([JFields.cons "ProductID" (.str "p1")
                (JFields.cons "name" (.str "A") .nil)].getD 0
                  JFields.nil).setAll
              (JFields.cons "price" (.num 5) .nil))⟩)) ∧
        (∀ k, (([JFields.cons "ProductID" (.str "p1")
              (JFields.cons "name" (.str "A") .nil)].getD 0
                JFields.nil).setAll
            (JFields.cons "price" (.num 5) .nil)).get k =
          match (JFields.cons "price" (.num 5) .nil).get k with
          | some v => some v
          | none => ([JFields.cons "ProductID" (.str "p1")
              (JFields.cons "name" (.str "A") .nil)].getD 0
                JFields.nil).get k) ∧
        (∃ fs', putCategoryF none
          ⟨[JFields.cons "ProductID" (.str "p1")
              (JFields.cons "name" (.str "A") .nil)],
            [JFields.cons "CategoryID" (.str "p1") .nil], []⟩ "p1"
          (JFields.cons "price" (.num 5) .nil) =
          .ok (fs', ⟨200,
            .recBody (([JFields.cons "CategoryID" (.str "p1") .nil].getD 0
                JFields.nil).setAll
              (JFields.cons "price" (.num 5) .nil))⟩)) ∧
        (∀ k, (([JFields.cons "CategoryID" (.str "p1") .nil].getD 0
              JFields.nil).setAll
            (JFields.cons "price" (.num 5) .nil)).get k =
          match (JFields.cons "price" (.num 5) .nil).get k with
          | some v => some v
          | none => ([JFields.cons "CategoryID" (.str "p1") .nil].getD 0
              JFields.nil).get k)) :=
  ⟨⟨by decide, by decide, by decide⟩,
    C3_flat_update_shallow_merge _ "p1" _ 0 0 (by decide) (by decide)
      (by decide)⟩

/-- C1: evaluation of the relational PUT /products/:id at a store holding
the record with ProductID p1 and name A, updated with the body having
name B.  The UPDATE statement writes jsonb_set(data, path ProductID,
stringified body), so the route answers 200 with a record whose
ProductID field now holds the entire body object and whose name field
still holds A — the body is not merged into the record and the
identifier is not re-pinned to the path id. -/
theorem C1_rel_update_stores_body_into_identifier :
    relPutProduct none
        ⟨[JFields.cons "ProductID" (.str "p1")
            (JFields.cons "name" (.str "A") .nil)], []⟩
        "p1" (JFields.cons "name" (.str "B") .nil) =
      (⟨[JFields.cons "ProductID"
            (.obj (JFields.cons "name" (.str "B") .nil))
            (JFields.cons "name" (.str "A") .nil)], []⟩,
        ⟨200, .recBody (JFields.cons "ProductID"
            (.obj (JFields.cons "name" (.str "B") .nil))
            (JFields.cons "name" (.str "A") .nil))⟩) ∧
      (JFields.cons "ProductID"
          (.obj (JFields.cons "name" (.str "B") .nil))
          (JFields.cons "name" (.str "A") .nil)).get "ProductID" ≠
        some (.str "p1") ∧
      (JFields.cons "ProductID"
          (.obj (JFields.cons "name" (.str "B") .nil))
          (JFields.cons "name" (.str "A") .nil)).get "name" ≠
        some (.str "B") := by
  refine ⟨?_, by decide, by decide⟩
  decide

/-- C2: amended error handling.  In the relational variant every route
catches a failing persistence call and answers 500 with a fixed generic
JSON message that does not echo the error; in the flat-file variant the
mutating routes have no catch, so an error thrown by the file write
propagates out of the route handler instead of being converted to a
response. -/
theorem C2_route_error_boundary (e : String) (nowMillis randDraw : Nat)
    (fs : FileState) (rs : RelState) (id : String) (body : JFields) :
    relGetProducts (some e) rs =
        (rs, ⟨500, .msgBody "Error fetching products"⟩) ∧
    relPostProduct (some e) nowMillis randDraw rs body =
        (rs, ⟨500, .msgBody "Error creating product"⟩) ∧
    relPutProduct (some e) rs id body =
        (rs, ⟨500, .msgBody "Error updating product"⟩) ∧
    relDeleteProduct (some e) rs id =
        (rs, ⟨500, .msgBody "Error deleting product"⟩) ∧
    relGetCategories (some e) rs =
        (rs, ⟨500, .msgBody "Error fetching categories"⟩) ∧
    relPostCategory (some e) nowMillis randDraw rs body =
        (rs, ⟨500, .msgBody "Error creating category"⟩) ∧
    relPutCategory (some e) rs id body =
        (rs, ⟨500, .msgBody "Error updating category"⟩) ∧
    relDeleteCategory (some e) rs id =
        (rs, ⟨500, .msgBody "Error deleting category"⟩) ∧
    postProductF (some e) nowMillis randDraw fs body = .error e ∧
    postCategoryF (some e) nowMillis randDraw fs body = .error e ∧
    (∀ i, fs.productsData.findIdx? (recMatches "ProductID" id) = some i →
      putProductF (some e) fs id body = .error e ∧
        deleteProductF (some e) fs id = .error e) ∧
    (∀ i, fs.categoriesData.findIdx? (recMatches "CategoryID" id) = some i →
      putCategoryF (some e) fs id body = .error e ∧
        deleteCategoryF (some e) fs id = .error e) := by
  refine ⟨rfl, rfl, rfl, rfl, rfl, rfl, rfl, rfl, rfl, rfl, ?_, ?_⟩
  · intro i hi
    constructor
    · simp only [putProductF, hi, writeData]
    · simp only [deleteProductF, hi, writeData]
  · intro i hi
    constructor
    · simp only [putCategoryF, hi, writeData]
    · simp only [deleteCategoryF, hi, writeData]

theorem C2_route_error_boundary_witness :
    putProductF (some "ENOSPC")
        ⟨[JFields.cons "ProductID" (.str "p1") JFields.nil],
          [JFields.cons "CategoryID" (.str "p1") JFields.nil], []⟩
        "p1" JFields.nil = .error "ENOSPC" ∧
      deleteProductF (some "ENOSPC")
        ⟨[JFields.cons "ProductID" (.str "p1") JFields.nil],
          [JFields.cons "CategoryID" (.str "p1") JFields.nil], []⟩
        "p1" = .error "ENOSPC" :=
  ((C2_route_error_boundary "ENOSPC" 1 2
      ⟨[JFields.cons "ProductID" (.str "p1") JFields.nil],
        [JFields.cons "CategoryID" (.str "p1") JFields.nil], []⟩
      ⟨[], []⟩ "p1" JFields.nil).2.2.2.2.2.2.2.2.2.2).1 0 (by decide)

/-- C2 counterexample: a flat-file POST /products whose file write throws
returns the propagated error, not a 500 response with a generic JSON
message — the claim fails for the flat-file variant. -/
theorem C2_flat_write_error_not_converted :
    postProductF (some "EACCES: permission denied") 1 2 ⟨[], [], []⟩
        JFields.nil =
      .error "EACCES: permission denied" := rfl

/-- C6: when no record carries the requested identifier, PUT and DELETE
answer 404 with the JSON not-found message in both variants and leave the
state exactly as it was: no record added, removed or modified, and in the
flat-file variant no file write performed (the conclusion holds for every
write outcome because writeData is never reached). -/
theorem C6_not_found_leaves_state_unchanged (fs : FileState)
    (rs : RelState) (id : String) (body : JFields) (wfail : Option String)
    (hfp : ∀ r ∈ fs.productsData, recMatches "ProductID" id r = false)
    (hfc : ∀ r ∈ fs.categoriesData, recMatches "CategoryID" id r = false)
    (hrp : ∀ r ∈ rs.products, rowMatches "ProductID" id r = false)
    (hrc : ∀ r ∈ rs.categories, rowMatches "CategoryID" id r = false) :
    putProductF wfail fs id body =
        .ok (fs, ⟨404, .msgBody "Product not found"⟩) ∧
    deleteProductF wfail fs id =
        .ok (fs, ⟨404, .msgBody "Product not found"⟩) ∧
    putCategoryF wfail fs id body =
        .ok (fs, ⟨404, .msgBody "Category not found"⟩) ∧
    deleteCategoryF wfail fs id =
        .ok (fs, ⟨404, .msgBody "Category not found"⟩) ∧
    relPutProduct none rs id body =
        (rs, ⟨404, .msgBody "Product not found"⟩) ∧
    relDeleteProduct none rs id =
        (rs, ⟨404, .msgBody "Product not found"⟩) ∧
    relPutCategory none rs id body =
        (rs, ⟨404, .msgBody "Category not found"⟩) ∧
    relDeleteCategory none rs id =
        (rs, ⟨404, .msgBody "Category not found"⟩) := by
  have hfp' : fs.productsData.findIdx? (recMatches "ProductID" id) =
      none := by
    rw [List.findIdx?_eq_none_iff]
    intro r hr
    exact hfp r hr
  have hfc' : fs.categoriesData.findIdx? (recMatches "CategoryID" id) =
      none := by
    rw [List.findIdx?_eq_none_iff]
    intro r hr
    exact hfc r hr
  have hrp' : rs.products.filter (rowMatches "ProductID" id) = [] := by
    rw [List.filter_eq_nil_iff]
    intro r hr
    simp [hrp r hr]
  have hrc' : rs.categories.filter (rowMatches "CategoryID" id) = [] := by
    rw [List.filter_eq_nil_iff]
    intro r hr
    simp [hrc r hr]
  refine ⟨?_, ?_, ?_, ?_, ?_, ?_, ?_, ?_⟩
  · simp only [putProductF, hfp']
  · simp only [deleteProductF, hfp']
  · simp only [putCategoryF, hfc']
  · simp only [deleteCategoryF, hfc']
  · simp only [relPutProduct, hrp', List.map_nil]
  · simp only [relDeleteProduct, hrp']
  · simp only [relPutCategory, hrc', List.map_nil]
  · simp only [relDeleteCategory, hrc']

theorem C6_not_found_leaves_state_unchanged_witness :
    ((∀ r ∈ [JFields.cons "ProductID" (.str "p1") JFields.nil],
        recMatches "ProductID" "zz" r = false) ∧
      (∀ r ∈ [JFields.cons "CategoryID" (.str "c1") JFields.nil],
        recMatches "CategoryID" "zz" r = false) ∧
      (∀ r ∈ [JFields.cons "ProductID" (.str "p1") JFields.nil],
        rowMatches "ProductID" "zz" r = false) ∧
      (∀ r ∈ [JFields.cons "CategoryID" (.str "c1") JFields.nil],
        rowMatches "CategoryID" "zz" r = false)) ∧
      (putProductF (some "ENOSPC")
          ⟨[JFields.cons "ProductID" (.str "p1") JFields.nil],
            [JFields.cons "CategoryID" (.str "c1") JFields.nil], []⟩
          "zz" JFields.nil =
        .ok (⟨[JFields.cons "ProductID" (.str "p1") JFields.nil],
            [JFields.cons "CategoryID" (.str "c1") JFields.nil], []⟩,
          ⟨404, .msgBody "Product not found"⟩) ∧
      deleteProductF (some "ENOSPC")
          ⟨[JFields.cons "ProductID" (.str "p1") JFields.nil],
            [JFields.cons "CategoryID" (.str "c1") JFields.nil], []⟩
          "zz" =
        .ok (⟨[JFields.cons "ProductID" (.str "p1") JFields.nil],
            [JFields.cons "CategoryID" (.str "c1") JFields.nil], []⟩,
          ⟨404, .msgBody "Product not found"⟩) ∧
      putCategoryF (some "ENOSPC")
          ⟨[JFields.cons "ProductID" (.str "p1") JFields.nil],
            [JFields.cons "CategoryID" (.str "c1") JFields.nil], []⟩
          "zz" JFields.nil =
        .ok (⟨[JFields.cons "ProductID" (.str "p1") JFields.nil],
            [JFields.cons "CategoryID" (.str "c1") JFields.nil], []⟩,
          ⟨404, .msgBody "Category not found"⟩) ∧
      deleteCategoryF (some "ENOSPC")
          ⟨[JFields.cons "ProductID" (.str "p1") JFields.nil],
            [JFields.cons "CategoryID" (.str "c1") JFields.nil], []⟩
          "zz" =
        .ok (⟨[JFields.cons "ProductID" (.str "p1") JFields.nil],
            [JFields.cons "CategoryID" (.str "c1") JFields.nil], []⟩,
          ⟨404, .msgBody "Category not found"⟩) ∧
      relPutProduct none
          ⟨[JFields.cons "ProductID" (.str "p1") JFields.nil],
            [JFields.cons "CategoryID" (.str "c1") JFields.nil]⟩
          "zz" JFields.nil =
        (⟨[JFields.cons "ProductID" (.str "p1") JFields.nil],
            [JFields.cons "CategoryID" (.str "c1") JFields.nil]⟩,
          ⟨404, .msgBody "Product not found"⟩) ∧
      relDeleteProduct none
          ⟨[JFields.cons "ProductID" (.str "p1") JFields.nil],
            [JFields.cons "CategoryID" (.str "c1") JFields.nil]⟩
          "zz" =
        (⟨[JFields.cons "ProductID" (.str "p1") JFields.nil],
            [JFields.cons "CategoryID" (.str "c1") JFields.nil]⟩,
          ⟨404, .msgBody "Product not found"⟩) ∧
      relPutCategory none
          ⟨[JFields.cons "ProductID" (.str "p1") JFields.nil],
            [JFields.cons "CategoryID" (.str "c1") JFields.nil]⟩
          "zz" JFields.nil =
        (⟨[JFields.cons "ProductID" (.str "p1") JFields.nil],
            [JFields.cons "CategoryID" (.str "c1") JFields.nil]⟩,
          ⟨404, .msgBody "Category not found"⟩) ∧
      relDeleteCategory none
          ⟨[JFields.cons "ProductID" (.str "p1") JFields.nil],
            [JFields.cons "CategoryID" (.str "c1") JFields.nil]⟩
          "zz" =
        (⟨[JFields.cons "ProductID" (.str "p1") JFields.nil],
            [JFields.cons "CategoryID" (.str "c1") JFields.nil]⟩,
          ⟨404, .msgBody "Category not found"⟩)) :=
  ⟨⟨by decide, by decide, by decide, by decide⟩,
    C6_not_found_leaves_state_unchanged
      ⟨[JFields.cons "ProductID" (.str "p1") JFields.nil],
        [JFields.cons "CategoryID" (.str "c1") JFields.nil], []⟩
      ⟨[JFields.cons "ProductID" (.str "p1") JFields.nil],
        [JFields.cons "CategoryID" (.str "c1") JFields.nil]⟩
      "zz" JFields.nil (some "ENOSPC")
      (by decide) (by decide) (by decide) (by decide)⟩

/-- C7 counterexample: with two stored products both carrying ProductID p,
the flat-file DELETE answers 204 and removes only the first match, so the
subsequent product list still contains a record whose identifier equals
p — the claim as stated fails. -/
theorem C7_delete_with_duplicate_identifier_leaves_match :
    deleteProductF none
        ⟨[JFields.cons "ProductID" (.str "p") .nil,
          JFields.cons "ProductID" (.str "p") .nil], [], []⟩ "p" =
      .ok (⟨[JFields.cons "ProductID" (.str "p") .nil], [],
          [([JFields.cons "ProductID" (.str "p") .nil], [])]⟩,
        ⟨204, .empty⟩) ∧
    recMatches "ProductID" "p"
        (JFields.cons "ProductID" (.str "p") .nil) = true :=
  ⟨rfl, by decide⟩

/-- C7 amended: when exactly one stored record carries the identifier,
DELETE answers 204 with an empty body, the collection shrinks by exactly
one record, and the remaining collection has no record with that
identifier — in both variants.  (With duplicate identifiers the flat-file
variant removes only the first match and the relational variant removes
every match, so the restriction to a unique match is necessary.) -/
theorem C7_delete_unique_identifier (fs : FileState) (rs : RelState)
    (id : String)
    (hf : fs.productsData.countP (recMatches "ProductID" id) = 1)
    (hr : rs.products.countP (rowMatches "ProductID" id) = 1) :
    (∃ fs', deleteProductF none fs id = .ok (fs', ⟨204, .empty⟩) ∧
        fs'.productsData.length + 1 = fs.productsData.length ∧
        ∀ r ∈ fs'.productsData, recMatches "ProductID" id r = false) ∧
    (∃ rs', relDeleteProduct none rs id = (rs', ⟨204, .empty⟩) ∧
        rs'.products.length + 1 = rs.products.length ∧
        ∀ r ∈ rs'.products, rowMatches "ProductID" id r = false) := by
  constructor
  · have hex : ∃ a ∈ fs.productsData, recMatches "ProductID" id a = true :=
      List.countP_pos_iff.mp (by omega)
    obtain ⟨i, hi⟩ : ∃ i,
        fs.productsData.findIdx? (recMatches "ProductID" id) = some i := by
      cases h : fs.productsData.findIdx? (recMatches "ProductID" id) with
      | some i => exact ⟨i, rfl⟩
      | none =>
        rw [List.findIdx?_eq_none_iff] at h
        obtain ⟨a, ha, hpa⟩ := hex
        exact absurd hpa (by simp [h a ha])
    obtain ⟨hlt, hpi, -⟩ := List.findIdx?_eq_some_iff_getElem.mp hi
    refine ⟨⟨fs.productsData.eraseIdx i, fs.categoriesData,
        fs.diskWrites ++ [(fs.productsData.eraseIdx i, fs.categoriesData)]⟩,
      ?_, ?_, ?_⟩
    · simp only [deleteProductF, hi, writeData]
    · rw [List.length_eraseIdx, if_pos hlt]
      omega
    · intro r hrr
      have hzero : (fs.productsData.eraseIdx i).countP
          (recMatches "ProductID" id) = 0 := by
        rw [countP_eraseIdx_of_getElem _ _ i hlt hpi, hf]
      have := List.countP_eq_zero.mp hzero r hrr
      simpa using this
  · have h1 : (rs.products.filter (rowMatches "ProductID" id)).length = 1 := by
      rw [← List.countP_eq_length_filter]
      exact hr
    obtain ⟨x, hx⟩ := List.length_eq_one.mp h1
    have hsum : rs.products.length =
        rs.products.countP (rowMatches "ProductID" id) +
          rs.products.countP (fun r => !(rowMatches "ProductID" id r)) := by
      have h := List.length_eq_countP_add_countP
        (rowMatches "ProductID" id) (l := rs.products)
      simpa using h
    refine ⟨⟨rs.products.filter (fun r => !(rowMatches "ProductID" id r)),
        rs.categories⟩, ?_, ?_, ?_⟩
    · simp only [relDeleteProduct, hx]
    · rw [← List.countP_eq_length_filter]
      omega
    · intro r hrr
      have := (List.mem_filter.mp hrr).2
      simpa using this

theorem C7_delete_unique_identifier_witness :
    ([JFields.cons "ProductID" (.str "p1") JFields.nil,
        JFields.cons "ProductID" (.str "p2") JFields.nil].countP
          (recMatches "ProductID" "p1") = 1 ∧
      [JFields.cons "ProductID" (.str "p1") JFields.nil,
        JFields.cons "ProductID" (.str "p2") JFields.nil].countP
          (rowMatches "ProductID" "p1") = 1) ∧
      ((∃ fs', deleteProductF none
          ⟨[JFields.cons "ProductID" (.str "p1") JFields.nil,
            JFields.cons "ProductID" (.str "p2") JFields.nil], [], []⟩
          "p1" = .ok (fs', ⟨204, .empty⟩) ∧
        fs'.productsData.length + 1 =
          [JFields.cons "ProductID" (.str "p1") JFields.nil,
            JFields.cons "ProductID" (.str "p2") JFields.nil].length ∧
        ∀ r ∈ fs'.productsData,
          recMatches "ProductID" "p1" r = false) ∧
      (∃ rs', relDeleteProduct none
          ⟨[JFields.cons "ProductID" (.str "p1") JFields.nil,
            JFields.cons "ProductID" (.str "p2") JFields.nil], []⟩
          "p1" = (rs', ⟨204, .empty⟩) ∧
        rs'.products.length + 1 =
          [JFields.cons "ProductID" (.str "p1") JFields.nil,
            JFields.cons "ProductID" (.str "p2") JFields.nil].length ∧
        ∀ r ∈ rs'.products,
          rowMatches "ProductID" "p1" r = false)) :=
  ⟨⟨by decide, by decide⟩,
    C7_delete_unique_identifier
      ⟨[JFields.cons "ProductID" (.str "p1") JFields.nil,
        JFields.cons "ProductID" (.str "p2") JFields.nil], [], []⟩
      ⟨[JFields.cons "ProductID" (.str "p1") JFields.nil,
        JFields.cons "ProductID" (.str "p2") JFields.nil], []⟩
      "p1" (by decide) (by decide)⟩

/-- C10: in the flat-file variant, PUT and DELETE locate the FIRST record
(in insertion order) whose identifier matches, affect only the entry at
that index, and leave every other position — in particular every later
duplicate of the identifier — unchanged (deletion shifts the later
entries down by one without altering them). -/
theorem C10_flat_first_match_only (fs : FileState) (id : String)
    (body : JFields) (i j : Nat)
    (hp : fs.productsData.findIdx? (recMatches "ProductID" id) = some i)
    (hc : fs.categoriesData.findIdx? (recMatches "CategoryID" id) = some j) :
    (∀ n, n < i → ∀ r, fs.productsData[n]? = some r →
        recMatches "ProductID" id r = false) ∧
    (∃ fs', putProductF none fs id body = .ok (fs',
        ⟨200, .recBody ((fs.productsData.getD i .nil).setAll body)⟩) ∧
      fs'.productsData =
        fs.productsData.set i ((fs.productsData.getD i .nil).setAll body) ∧
      ∀ n, n ≠ i → fs'.productsData[n]? = fs.productsData[n]?) ∧
    (∃ fs', deleteProductF none fs id = .ok (fs', ⟨204, .empty⟩) ∧
      fs'.productsData = fs.productsData.eraseIdx i ∧
      ∀ n, i < n → fs'.productsData[n - 1]? = fs.productsData[n]?) ∧
    (∀ n, n < j → ∀ r, fs.categoriesData[n]? = some r →
        recMatches "CategoryID" id r = false) ∧
    (∃ fs', putCategoryF none fs id body = .ok (fs',
        ⟨200, .recBody ((fs.categoriesData.getD j .nil).setAll body)⟩) ∧
      fs'.categoriesData =
        fs.categoriesData.set j
          ((fs.categoriesData.getD j .nil).setAll body) ∧
      ∀ n, n ≠ j → fs'.categoriesData[n]? = fs.categoriesData[n]?) ∧
    (∃ fs', deleteCategoryF none fs id = .ok (fs', ⟨204, .empty⟩) ∧
      fs'.categoriesData = fs.categoriesData.eraseIdx j ∧
      ∀ n, j < n → fs'.categoriesData[n - 1]? = fs.categoriesData[n]?) := by
  obtain ⟨hltp, hpip, hfirstp⟩ := List.findIdx?_eq_some_iff_getElem.mp hp
  obtain ⟨hltc, hpic, hfirstc⟩ := List.findIdx?_eq_some_iff_getElem.mp hc
  refine ⟨?_, ?_, ?_, ?_, ?_, ?_⟩
  · intro n hn r hr
    have hnlt : n < fs.productsData.length := lt_trans hn hltp
    rw [List.getElem?_eq_getElem hnlt] at hr
    cases hr
    simpa using hfirstp n hn
  · refine ⟨⟨fs.productsData.set i
        ((fs.productsData.getD i .nil).setAll body), fs.categoriesData,
        fs.diskWrites ++ [(fs.productsData.set i
          ((fs.productsData.getD i .nil).setAll body),
          fs.categoriesData)]⟩, ?_, rfl, ?_⟩
    · simp only [putProductF, hp, writeData]
    · intro n hn
      exact List.getElem?_set_ne (Ne.symm hn)
  · refine ⟨⟨fs.productsData.eraseIdx i, fs.categoriesData,
        fs.diskWrites ++ [(fs.productsData.eraseIdx i,
          fs.categoriesData)]⟩, ?_, rfl, ?_⟩
    · simp only [deleteProductF, hp, writeData]
    · intro n hn
      rw [List.getElem?_eraseIdx, if_neg (by omega)]
      congr 1
      omega
  · intro n hn r hr
    have hnlt : n < fs.categoriesData.length := lt_trans hn hltc
    rw [List.getElem?_eq_getElem hnlt] at hr
    cases hr
    simpa using hfirstc n hn
  · refine ⟨⟨fs.productsData, fs.categoriesData.set j
        ((fs.categoriesData.getD j .nil).setAll body),
        fs.diskWrites ++ [(fs.productsData, fs.categoriesData.set j
          ((fs.categoriesData.getD j .nil).setAll body))]⟩, ?_, rfl, ?_⟩
    · simp only [putCategoryF, hc, writeData]
    · intro n hn
      exact List.getElem?_set_ne (Ne.symm hn)
  · refine ⟨⟨fs.productsData, fs.categoriesData.eraseIdx j,
        fs.diskWrites ++ [(fs.productsData,
          fs.categoriesData.eraseIdx j)]⟩, ?_, rfl, ?_⟩
    · simp only [deleteCategoryF, hc, writeData]
    · intro n hn
      rw [List.getElem?_eraseIdx, if_neg (by omega)]
      congr 1
      omega

theorem C10_flat_first_match_only_witness :
    ([JFields.cons "ProductID" (.str "p") JFields.nil].findIdx?
        (recMatches "ProductID" "p") = some 0 ∧
      [JFields.cons "CategoryID" (.str "p") JFields.nil].findIdx?
        (recMatches "CategoryID" "p") = some 0) ∧
    ((∀ n, n < 0 → ∀ r,
        [JFields.cons "ProductID" (.str "p") JFields.nil][n]? = some r →
          recMatches "ProductID" "p" r = false) ∧
      (∃ fs', putProductF none
          ⟨[JFields.cons "ProductID" (.str "p") JFields.nil],
            [JFields.cons "CategoryID" (.str "p") JFields.nil], []⟩
          "p" JFields.nil = .ok (fs',
          ⟨200, .recBody
            (([JFields.cons "ProductID" (.str "p") JFields.nil].getD 0
              JFields.nil).setAll JFields.nil)⟩) ∧
        fs'.productsData =
          [JFields.cons "ProductID" (.str "p") JFields.nil].set 0
            (([JFields.cons "ProductID" (.str "p") JFields.nil].getD 0
              JFields.nil).setAll JFields.nil) ∧
        ∀ n, n ≠ 0 → fs'.productsData[n]? =
          [JFields.cons "ProductID" (.str "p") JFields.nil][n]?) ∧
      (∃ fs', deleteProductF none
          ⟨[JFields.cons "ProductID" (.str "p") JFields.nil],
            [JFields.cons "CategoryID" (.str "p") JFields.nil], []⟩
          "p" = .ok (fs', ⟨204, .empty⟩) ∧
        fs'.productsData =
          [JFields.cons "ProductID" (.str "p") JFields.nil].eraseIdx 0 ∧
        ∀ n, 0 < n → fs'.productsData[n - 1]? =
          [JFields.cons "ProductID" (.str "p") JFields.nil][n]?) ∧
      (∀ n, n < 0 → ∀ r,
        [JFields.cons "CategoryID" (.str "p") JFields.nil][n]? = some r →
          recMatches "CategoryID" "p" r = false) ∧
      (∃ fs', putCategoryF none
          ⟨[JFields.cons "ProductID" (.str "p") JFields.nil],
            [JFields.cons "CategoryID" (.str "p") JFields.nil], []⟩
          "p" JFields.nil = .ok (fs',
          ⟨200, .recBody
            (([JFields.cons "CategoryID" (.str "p") JFields.nil].getD 0
              JFields.nil).setAll JFields.nil)⟩) ∧
        fs'.categoriesData =
          [JFields.cons "CategoryID" (.str "p") JFields.nil].set 0
            (([JFields.cons "CategoryID" (.str "p") JFields.nil].getD 0
              JFields.nil).setAll JFields.nil) ∧
        ∀ n, n ≠ 0 → fs'.categoriesData[n]? =
          [JFields.cons "CategoryID" (.str "p") JFields.nil][n]?) ∧
      (∃ fs', deleteCategoryF none
          ⟨[JFields.cons "ProductID" (.str "p") JFields.nil],
            [JFields.cons "CategoryID" (.str "p") JFields.nil], []⟩
          "p" = .ok (fs', ⟨204, .empty⟩) ∧
        fs'.categoriesData =
          [JFields.cons "CategoryID" (.str "p") JFields.nil].eraseIdx 0 ∧
        ∀ n, 0 < n → fs'.categoriesData[n - 1]? =
          [JFields.cons "CategoryID" (.str "p") JFields.nil][n]?)) :=
  ⟨⟨by decide, by decide⟩,
    C10_flat_first_match_only
      ⟨[JFields.cons "ProductID" (.str "p") JFields.nil],
        [JFields.cons "CategoryID" (.str "p") JFields.nil], []⟩
      "p" JFields.nil 0 0 (by decide) (by decide)⟩
